import Mathlib

/-!
Verification development for the deepfake-detector command-line pipeline
(src/ai_models/deepfake_detector.py).

The pipeline is embedded shallowly over exact rationals.  The external
OpenCV / numpy primitives (Haar cascade detection, Farneback optical flow,
the per-crop pixel statistics, the FFT energy ratio, the colour histogram)
are modelled as data carried by each frame or as function parameters; every
piece of pure Python orchestration (loops, guards, `faces[0]` selection,
leading-frame caps, thresholds, clamps, the weighted aggregation, the driver) is
translated directly from the source.
-/

namespace Deepfake

/-- Arithmetic mean, `np.mean`: sum divided by length (0 on the empty list,
which the source never evaluates thanks to its length guards). -/
def mean (xs : List ℚ) : ℚ := xs.sum / (xs.length : ℚ)

/-- Population variance, `np.var` and the square of `np.std`: the mean of the
squared deviations from the mean. -/
def variance (xs : List ℚ) : ℚ := mean (xs.map (fun x => (x - mean xs) ^ 2))

/-- Rational square root used to model `np.std = sqrt(variance)`.  It is exact
whenever the argument is the square of a rational (which holds at every
concrete input evaluated in this development) and a floor approximation
otherwise; it is nonnegative everywhere, which is the only fact the
universally quantified theorems use about it. -/
def ratSqrt (q : ℚ) : ℚ := (Nat.sqrt (q.num.toNat * q.den) : ℚ) / (q.den : ℚ)

/-- Model of `np.std`: square root of the population variance. -/
def npStd (xs : List ℚ) : ℚ := ratSqrt (variance xs)

/-- Model of Python `int(...)` on a float: truncation toward zero. -/
def pyInt (q : ℚ) : ℤ := if 0 ≤ q then ⌊q⌋ else ⌈q⌉

/-- Model of Python `round(x, 3)` (the source rounds only for display; the
half-to-even tie behaviour of binary floats is never exercised on an exact
half-thousandth here). -/
def round3 (q : ℚ) : ℚ := (round (q * 1000) : ℚ) / 1000

/-- Model of Python `round(x, 2)` used for the reported fps. -/
def round2 (q : ℚ) : ℚ := (round (q * 100) : ℚ) / 100

/-- Raw bounding box as returned by `detectMultiScale`: `(x, y, fw, fh)`. -/
structure Box where
  x : ℕ
  y : ℕ
  fw : ℕ
  fh : ℕ
deriving DecidableEq

/-- Clamped face region `(x1, y1, x2, y2)` in frame coordinates. -/
structure Region where
  x1 : ℕ
  y1 : ℕ
  x2 : ℕ
  y2 : ℕ
deriving DecidableEq

/-- Region with integer coordinates, used to state the padding contract the
spec describes (explicit `max 0` clamping instead of truncated subtraction). -/
structure IntRegion where
  x1 : ℤ
  y1 : ℤ
  x2 : ℤ
  y2 : ℤ
deriving DecidableEq

/-- View of a natural-number region inside `IntRegion`. -/
def Region.toInt (r : Region) : IntRegion := ⟨r.x1, r.y1, r.x2, r.y2⟩

/-- A sampled frame.  `faces` is the raw Haar-cascade output for the frame;
the four oracles give, for any crop rectangle, the external pixel-level
measurements the analyzers consume: the six colour statistics
`[b_mean, g_mean, r_mean, b_std, g_std, r_std]`, the Laplacian edge response
values of the grayscale crop, the FFT high-frequency energy ratio (present
exactly when the total spectral energy is positive), and the concatenated
normalized 32-bin histograms of the three channels. -/
structure Frame where
  height : ℕ
  width : ℕ
  faces : List Box
  colorOf : Region → List ℚ
  lapOf : Region → List ℚ
  freqOf : Region → Option ℚ
  histOf : Region → List ℚ

/-- Padding and clamping of one raw box, from `detect_faces_haar`:
`pad = int(fw * 0.2)` (the float product truncates to `fw / 5` for all
realistic widths), `x1 = max(0, x - pad)` (natural subtraction), and the
upper coordinates clamped to the frame.  Note the source uses the box WIDTH
for the padding on both axes. -/
def boxRegion (frameH frameW : ℕ) (b : Box) : Region :=
  let pad := b.fw / 5
  ⟨b.x - pad, b.y - pad, min frameW (b.x + b.fw + pad), min frameH (b.y + b.fh + pad)⟩

/-- Translation of `detect_faces_haar`: each raw box is padded and clamped,
and kept only when the resulting crop is nonempty (`crop.size > 0`, i.e. the
clamped rectangle has positive extent on both axes). -/
def detect_faces_haar (f : Frame) : List Region :=
  f.faces.filterMap (fun b =>
    let r := boxRegion f.height f.width b
    if r.x1 < r.x2 ∧ r.y1 < r.y2 then some r else none)

/-- The crop every analyzer uses: `faces[0]` of the detector output. -/
def firstCrop (f : Frame) : Option Region := (detect_faces_haar f).head?

/-- Area of a region, `(x2 - x1) * (y2 - y1)`. -/
def regionArea (r : Region) : ℕ := (r.x2 - r.x1) * (r.y2 - r.y1)

/-- Translation of `analyze_color_stability`: over the first 40 frames with a
detected face, collect the six colour statistics of the first crop; with
fewer than 5 samples return the neutral 0.5, otherwise average the six
per-column standard deviations and clamp `(tv - 5) / 10` to `[0, 1]`. -/
def analyze_color_stability (frames : List Frame) : ℚ :=
  let samples := (frames.take 40).filterMap (fun f => (firstCrop f).map f.colorOf)
  if samples.length < 5 then 1/2
  else
    let tv := mean (samples.transpose.map npStd)
    min 1 (max 0 ((tv - 5) / 10))

/-- Mean optical-flow magnitudes of the consecutive pairs among the first
`min n 30` frames, exactly the pairs the source loop
`for i in range(1, min(len(frames), 30))` visits.  The flow field itself is
the external Farneback computation, passed in as `flow`. -/
def pairFlows (flow : Frame → Frame → ℚ) (frames : List Frame) : List ℚ :=
  let fs := frames.take (min frames.length 30)
  List.zipWith flow fs fs.tail

/-- Translation of `analyze_motion_consistency`.  The source compares
`std / mean` against 0.25 and 2.5; since the standard deviation is
nonnegative and the mean has already been checked to be at least 0.01, these
comparisons are written equivalently on the squares
(`std/m < c  iff  variance < c^2 * m^2`), which keeps the definition exact
over the rationals. -/
def analyze_motion_consistency (flow : Frame → Frame → ℚ) (frames : List Frame) : ℚ :=
  if frames.length < 6 then 1/2
  else
    let flows := pairFlows flow frames
    if flows.length < 3 then 1/2
    else
      let m := mean flows
      if m < 1/100 then 1/2
      else
        if variance flows < m ^ 2 / 16 then 3/4
        else if m ^ 2 * 25 / 4 < variance flows then 7/10
        else 3/10

/-- Translation of `analyze_sharpness_consistency`: over the first 35 frames
with a detected face, the sample is the variance of the Laplacian response of
the first crop; with fewer than 5 samples 0.5, else a base blur score of 0.6
when the mean is below 50, 0.7 when the sharpness is itself unstable
(`std > 0.5 * mean`, written on squares as above), else the blur score when
it exceeds 0.4 and 0.3 otherwise. -/
def analyze_sharpness_consistency (frames : List Frame) : ℚ :=
  let samples := (frames.take 35).filterMap
    (fun f => (firstCrop f).map (fun r => variance (f.lapOf r)))
  if samples.length < 5 then 1/2
  else
    let m := mean samples
    let blur : ℚ := if m < 50 then 3/5 else 0
    if m ^ 2 / 4 < variance samples then max blur (7/10)
    else if 2/5 < blur then blur
    else 3/10

/-- Translation of `analyze_frequency_spectrum`: over the first 25 frames
with a detected face, collect the high-frequency energy ratio of the first
crop (absent when the total energy is zero); with fewer than 3 samples 0.5,
else threshold the average ratio. -/
def analyze_frequency_spectrum (frames : List Frame) : ℚ :=
  let samples := (frames.take 25).filterMap (fun f => (firstCrop f).bind f.freqOf)
  if samples.length < 3 then 1/2
  else
    let avg := mean samples
    if avg < 2/5 then 7/10
    else if 3/5 < avg then 3/10
    else 1/2

/-- Translation of `analyze_face_size_stability`: over the first 50 frames
with a detected face, record the padded-and-clamped crop area; with fewer
than 5 samples 0.5, with zero mean 0.5, else clamp
`(std/mean - 0.1) / 0.2` to `[0, 1]`. -/
def analyze_face_size_stability (frames : List Frame) : ℚ :=
  let sizes := (frames.take 50).filterMap
    (fun f => (firstCrop f).map (fun r => (regionArea r : ℚ)))
  if sizes.length < 5 then 1/2
  else
    let m := mean sizes
    if m = 0 then 1/2
    else
      let cv := npStd sizes / m
      min 1 (max 0 ((cv - 1/10) / (1/5)))

/-- Translation of `analyze_histogram_consistency`: over the first 30 frames
with a detected face, collect the 96-entry histogram feature vector of the
first crop; with fewer than 5 samples 0.5, else average the per-dimension
standard deviations and cap `tv / 0.08` at 1 (no lower clamp in the
source). -/
def analyze_histogram_consistency (frames : List Frame) : ℚ :=
  let samples := (frames.take 30).filterMap (fun f => (firstCrop f).map f.histOf)
  if samples.length < 5 then 1/2
  else
    let tv := mean (samples.transpose.map npStd)
    min 1 (tv / (2/25))

/-- The fixed aggregation weights of `aggregate_features`. -/
def wColor : ℚ := 1/5

/-- Weight of the motion score. -/
def wMotion : ℚ := 1/5

/-- Weight of the sharpness score. -/
def wSharpness : ℚ := 1/5

/-- Weight of the frequency score. -/
def wFrequency : ℚ := 1/5

/-- Weight of the face-size-stability score. -/
def wStability : ℚ := 1/10

/-- Weight of the histogram score. -/
def wHistogram : ℚ := 1/10

/-- The `details` record of the success output (scores rounded to three
decimals for display, frame count, rounded fps). -/
structure Details where
  color_stability : ℚ
  motion_consistency : ℚ
  sharpness_quality : ℚ
  frequency_artifacts : ℚ
  face_stability : ℚ
  histogram_consistency : ℚ
  frames_analyzed : ℕ
  fps : ℚ
deriving DecidableEq

/-- Translation of `aggregate_features`: run the six analyzers, combine with
the fixed weights, and scale to a 0..100 probability. -/
def aggregate_features (flow : Frame → Frame → ℚ) (frames : List Frame) (fps : ℚ) :
    ℚ × Details :=
  let color_score := analyze_color_stability frames
  let motion_score := analyze_motion_consistency flow frames
  let sharpness_score := analyze_sharpness_consistency frames
  let freq_score := analyze_frequency_spectrum frames
  let stability_score := analyze_face_size_stability frames
  let hist_score := analyze_histogram_consistency frames
  let combined := wColor * color_score + wMotion * motion_score +
    wSharpness * sharpness_score + wFrequency * freq_score +
    wStability * stability_score + wHistogram * hist_score
  (combined * 100,
    ⟨round3 color_score, round3 motion_score, round3 sharpness_score,
     round3 freq_score, round3 stability_score, round3 hist_score,
     frames.length, round2 fps⟩)

/-- A video source as seen through `cv2.VideoCapture`: whether the path
exists on disk, whether the decoder can open it, the reported frame count
and frame rate, and the (possibly failing) frame read at each index.  When
the capture cannot be opened, `cv2` reports a frame count of 0 and every
read fails; `getFrames` encodes that below. -/
structure VideoSource where
  pathExists : Bool
  opened : Bool
  total : ℕ
  fps : ℚ
  readAt : ℕ → Option Frame

/-- Sampling indices of `get_frames`: every index when the total is within
the cap, otherwise 80 evenly spaced indices
(`np.linspace(0, total - 1, 80, dtype=int)`, whose float values truncate to
`i * (total - 1) / 79`). -/
def sampleIndices (total : ℕ) : List ℕ :=
  if total ≤ 80 then List.range total
  else (List.range 80).map (fun i => i * (total - 1) / 79)

/-- Translation of `get_frames`: read the sampled indices, keeping only the
successful reads, and return the frames together with the reported fps.  An
unopened capture reports 0 total frames, 0 fps, and failing reads. -/
def getFrames (v : VideoSource) : List Frame × ℚ :=
  let total := if v.opened then v.total else 0
  let fps := if v.opened then v.fps else 0
  ((sampleIndices total).filterMap (fun i => if v.opened then v.readAt i else none), fps)

/-- The JSON object `detect` returns: either the error schema
`{"error": msg}` or the success schema. -/
inductive DetectResult where
  | error (msg : String)
  | success (isDeepfake : Bool) (confidence : ℤ) (details : Details)
deriving DecidableEq

/-- The confidence computation of `detect`:
`int(probability if is_deepfake else 100 - probability)`. -/
def pyConfidence (p : ℚ) : ℤ := pyInt (if 50 < p then p else 100 - p)

/-- Translation of `detect`: missing path gives the `File not found` error
object; fewer than 5 decoded frames gives the `Video too short` error
object; otherwise the aggregated probability is turned into the verdict,
the truncated confidence, and the details record. -/
def detect (flow : Frame → Frame → ℚ) (v : VideoSource) : DetectResult :=
  if v.pathExists = false then .error "File not found"
  else
    let fr := getFrames v
    if fr.1.length < 5 then .error "Video too short (need at least 5 frames)"
    else
      let pd := aggregate_features flow fr.1 fr.2
      .success (decide (50 < pd.1)) (pyConfidence pd.1) pd.2

/-- The JSON object the driver prints: the missing-argument error object,
the caught-exception error object (which also carries a traceback field),
or whatever object `detect` returned. -/
inductive Emitted where
  | errObj (msg : String)
  | excObj (msg : String)
  | okObj (r : DetectResult)
deriving DecidableEq

/-- Whether the emitted JSON is the error schema `{"error": ...}`.  The
result object of `detect` itself is the error schema whenever `detect`
returned an error dictionary. -/
def isErrorSchema : Emitted → Bool
  | .errObj _ => true
  | .excObj _ => true
  | .okObj (.error _) => true
  | .okObj (.success _ _ _) => false

/-- Translation of the `__main__` driver: with fewer than two argv entries,
print the missing-argument error object and exit 1; otherwise run `detect`
inside `try`, printing its result and exiting 0, and on any exception
(modelled by the `exc` parameter, since the pure pipeline itself cannot
raise) print the exception error object and exit 1. -/
def pyMain (argv : List String) (lookup : String → VideoSource)
    (flow : Frame → Frame → ℚ) (exc : Option String) : Emitted × ℕ :=
  match argv with
  | _ :: path :: _ =>
      match exc with
      | some e => (.excObj e, 1)
      | none => (.okObj (detect flow (lookup path)), 0)
  | _ => (.errObj "No video path provided", 1)

/-- Modelled from the spec (claim C6): the face region as the spec words it,
with the raw box expanded by 20 percent of the detected width on the x axis
and 20 percent of the detected height on the y axis, then clamped to the
frame bounds. -/
def specFaceRegion (frameH frameW : ℕ) (b : Box) : IntRegion :=
  let px : ℤ := b.fw / 5
  let py : ℤ := b.fh / 5
  ⟨max 0 ((b.x : ℤ) - px), max 0 ((b.y : ℤ) - py),
   min (frameW : ℤ) ((b.x : ℤ) + b.fw + px), min (frameH : ℤ) ((b.y : ℤ) + b.fh + py)⟩

/-- Expansion-then-clamp with explicit per-axis paddings, used to state the
amended padding contract. -/
def expandClamp (frameH frameW : ℕ) (px py : ℤ) (b : Box) : IntRegion :=
  ⟨max 0 ((b.x : ℤ) - px), max 0 ((b.y : ℤ) - py),
   min (frameW : ℤ) ((b.x : ℤ) + b.fw + px), min (frameH : ℤ) ((b.y : ℤ) + b.fh + py)⟩

/-- Modelled from the claim (C5): the motion score as the claim words it —
mean flow magnitude over up to the first 30 consecutive frame pairs, neutral
exactly when fewer than 3 flow samples exist or the mean magnitude is below
0.01, and otherwise scored by the three-way variance-ratio threshold. -/
def claimMotionScore (flow : Frame → Frame → ℚ) (frames : List Frame) : ℚ :=
  let flows := (List.zipWith flow frames frames.tail).take 30
  if flows.length < 3 then 1/2
  else
    let m := mean flows
    if m < 1/100 then 1/2
    else
      if variance flows < m ^ 2 / 16 then 3/4
      else if m ^ 2 * 25 / 4 < variance flows then 7/10
      else 3/10

/-- Modelled from the claim (C4): confidence rounded to the nearest
integer. -/
def claimConfidence (p : ℚ) : ℤ := round (if 50 < p then p else 100 - p)

/-- The three-way threshold part of the motion analyzer, used to state what
the code computes once at least 6 frames are present. -/
def motionThreeWay (flow : Frame → Frame → ℚ) (frames : List Frame) : ℚ :=
  let flows := pairFlows flow frames
  let m := mean flows
  if m < 1/100 then 1/2
  else
    if variance flows < m ^ 2 / 16 then 3/4
    else if m ^ 2 * 25 / 4 < variance flows then 7/10
    else 3/10

/-- Boolean check that every raw box of a frame is a genuine Haar detection:
positive extent and contained in the frame. -/
def validBoxes (f : Frame) : Bool :=
  f.faces.all (fun b =>
    decide (0 < b.fw) && decide (0 < b.fh) &&
    decide (b.x + b.fw ≤ f.width) && decide (b.y + b.fh ≤ f.height))

/-- A frame with only its first raw detection kept. -/
def keepFirst (f : Frame) : Frame := { f with faces := f.faces.take 1 }

/-- Boolean check that the detector finds no face in a frame. -/
def noFaces (f : Frame) : Bool := (detect_faces_haar f).isEmpty

/-- Flow oracle that reports no motion anywhere. -/
def flow0 : Frame → Frame → ℚ := fun _ _ => 0

/-- Flow oracle that reports unit mean flow magnitude for every pair. -/
def flowOne : Frame → Frame → ℚ := fun _ _ => 1

/-- A frame in which the cascade detects no face. -/
def nfFrame : Frame :=
  ⟨100, 100, [], fun _ => [], fun _ => [], fun _ => none, fun _ => []⟩

/-- Four faceless frames. -/
def nf4 : List Frame := List.replicate 4 nfFrame

/-- Five faceless frames. -/
def nf5 : List Frame := List.replicate 5 nfFrame

/-- Six faceless frames. -/
def nf6 : List Frame := List.replicate 6 nfFrame

/-- First frame of the concrete five-frame face video: one 12 by 39 raw box
(padded region 16 by 43, area 688), colour features 520, Laplacian response
of variance 100, frequency ratio one half, a flat histogram feature. -/
def cx1 : Frame where
  height := 1000
  width := 1000
  faces := [⟨100, 100, 12, 39⟩]
  colorOf := fun _ => List.replicate 6 520
  lapOf := fun _ => [20, -5, -5, -5, -5]
  freqOf := fun _ => some (1/2)
  histOf := fun _ => [0]

/-- The remaining frames of the concrete face video: one 3 by 151 raw box
(no padding, area 453), colour features 495, the same Laplacian response,
frequency ratio one half, the same flat histogram feature. -/
def cx2 : Frame where
  height := 1000
  width := 1000
  faces := [⟨100, 100, 3, 151⟩]
  colorOf := fun _ => List.replicate 6 495
  lapOf := fun _ => [20, -5, -5, -5, -5]
  freqOf := fun _ => some (1/2)
  histOf := fun _ => [0]

/-- The concrete five-frame face video. -/
def cxFrames : List Frame := [cx1, cx2, cx2, cx2, cx2]

/-- A readable source decoding to exactly the five `cxFrames`. -/
def cxSource : VideoSource :=
  ⟨true, true, 5, 1, fun i => if i = 0 then some cx1 else some cx2⟩

/-- A readable source decoding to five faceless frames. -/
def nfSrc5 : VideoSource := ⟨true, true, 5, 1, fun _ => some nfFrame⟩

/-- A readable source decoding to exactly four frames. -/
def nfSrc4 : VideoSource := ⟨true, true, 4, 1, fun _ => some nfFrame⟩

/-- An existing source the decoder cannot open. -/
def unreadSrc : VideoSource := ⟨true, false, 1000, 30, fun _ => some nfFrame⟩

/-- A path that does not exist. -/
def missingSrc : VideoSource := ⟨false, true, 0, 0, fun _ => none⟩

/-- A frame in which the cascade reports two valid boxes; the measurement
oracles depend on the crop rectangle, so that using a different crop would
change the samples of every analyzer. -/
def twFrame : Frame where
  height := 200
  width := 200
  faces := [⟨10, 10, 20, 20⟩, ⟨50, 50, 30, 30⟩]
  colorOf := fun r => List.replicate 6 (r.x1 : ℚ)
  lapOf := fun r => [(r.x1 : ℚ), 0, 0]
  freqOf := fun r => some ((r.x1 : ℚ) / 100)
  histOf := fun r => [(r.x1 : ℚ)]

/-- Five two-face frames. -/
def twFrames : List Frame := List.replicate 5 twFrame

lemma ratSqrt_nonneg (q : ℚ) : 0 ≤ ratSqrt q :=
  div_nonneg (Nat.cast_nonneg _) (Nat.cast_nonneg _)

lemma npStd_nonneg (xs : List ℚ) : 0 ≤ npStd xs := ratSqrt_nonneg _

lemma mean_nonneg {xs : List ℚ} (h : ∀ x ∈ xs, 0 ≤ x) : 0 ≤ mean xs :=
  div_nonneg (List.sum_nonneg h) (Nat.cast_nonneg _)

lemma clamp01_nonneg (t : ℚ) : 0 ≤ min 1 (max 0 t) :=
  le_min one_pos.le (le_max_left 0 t)

lemma clamp01_le_one (t : ℚ) : min 1 (max 0 t) ≤ 1 := min_le_left 1 _

lemma color_bounds (frames : List Frame) :
    0 ≤ analyze_color_stability frames ∧ analyze_color_stability frames ≤ 1 := by
  simp only [analyze_color_stability]
  split_ifs
  · norm_num
  · exact ⟨clamp01_nonneg _, clamp01_le_one _⟩

lemma motion_bounds (flow : Frame → Frame → ℚ) (frames : List Frame) :
    0 ≤ analyze_motion_consistency flow frames ∧
      analyze_motion_consistency flow frames ≤ 1 := by
  simp only [analyze_motion_consistency]
  split_ifs <;> norm_num

lemma sharpness_bounds (frames : List Frame) :
    0 ≤ analyze_sharpness_consistency frames ∧
      analyze_sharpness_consistency frames ≤ 1 := by
  simp only [analyze_sharpness_consistency]
  split_ifs <;> constructor <;> norm_num

lemma frequency_bounds (frames : List Frame) :
    0 ≤ analyze_frequency_spectrum frames ∧
      analyze_frequency_spectrum frames ≤ 1 := by
  simp only [analyze_frequency_spectrum]
  split_ifs <;> norm_num

lemma stability_bounds (frames : List Frame) :
    0 ≤ analyze_face_size_stability frames ∧
      analyze_face_size_stability frames ≤ 1 := by
  simp only [analyze_face_size_stability]
  split_ifs
  · norm_num
  · norm_num
  · exact ⟨clamp01_nonneg _, clamp01_le_one _⟩

lemma histogram_bounds (frames : List Frame) :
    0 ≤ analyze_histogram_consistency frames ∧
      analyze_histogram_consistency frames ≤ 1 := by
  simp only [analyze_histogram_consistency]
  split_ifs
  · norm_num
  · have htv : 0 ≤ mean ((((frames.take 30).filterMap
        (fun f => (firstCrop f).map f.histOf)).transpose).map npStd) := by
      refine mean_nonneg ?_
      intro x hx
      obtain ⟨ys, _, rfl⟩ := List.mem_map.mp hx
      exact npStd_nonneg ys
    exact ⟨le_min (by norm_num) (div_nonneg htv (by norm_num)), min_le_left 1 _⟩

lemma probability_expand (flow : Frame → Frame → ℚ) (frames : List Frame) (fps : ℚ) :
    (aggregate_features flow frames fps).1 =
      20 * analyze_color_stability frames +
      20 * analyze_motion_consistency flow frames +
      20 * analyze_sharpness_consistency frames +
      20 * analyze_frequency_spectrum frames +
      10 * analyze_face_size_stability frames +
      10 * analyze_histogram_consistency frames := by
  simp only [aggregate_features, wColor, wMotion, wSharpness, wFrequency,
    wStability, wHistogram]
  ring

lemma probability_bounds (flow : Frame → Frame → ℚ) (frames : List Frame) (fps : ℚ) :
    0 ≤ (aggregate_features flow frames fps).1 ∧
      (aggregate_features flow frames fps).1 ≤ 100 := by
  obtain ⟨c0, c1⟩ := color_bounds frames
  obtain ⟨m0, m1⟩ := motion_bounds flow frames
  obtain ⟨s0, s1⟩ := sharpness_bounds frames
  obtain ⟨f0, f1⟩ := frequency_bounds frames
  obtain ⟨t0, t1⟩ := stability_bounds frames
  obtain ⟨h0, h1⟩ := histogram_bounds frames
  rw [probability_expand]
  constructor <;> linarith

lemma pyConfidence_bounds {p : ℚ} (h0 : 0 ≤ p) (h100 : p ≤ 100) :
    0 ≤ pyConfidence p ∧ pyConfidence p ≤ 100 := by
  have hfl : ∀ q : ℚ, 0 ≤ q → q ≤ 100 → 0 ≤ ⌊q⌋ ∧ ⌊q⌋ ≤ 100 := by
    intro q hq0 hq1
    refine ⟨Int.floor_nonneg.mpr hq0, ?_⟩
    have h := Int.floor_le_floor (α := ℚ) hq1
    simpa using h
  unfold pyConfidence pyInt
  by_cases hv : 50 < p
  · rw [if_pos hv, if_pos h0]
    exact hfl p h0 h100
  · rw [if_neg hv, if_pos (by linarith : (0 : ℚ) ≤ 100 - p)]
    exact hfl _ (by linarith) (by linarith)

/-- C3: the final probability is exactly 100 times the weighted sum of the
six feature scores under the fixed weights 0.20, 0.20, 0.20, 0.20, 0.10,
0.10, and those weights sum to 1. -/
theorem C3_weighted_sum (flow : Frame → Frame → ℚ) (frames : List Frame) (fps : ℚ) :
    (aggregate_features flow frames fps).1 =
      100 * (wColor * analyze_color_stability frames +
        wMotion * analyze_motion_consistency flow frames +
        wSharpness * analyze_sharpness_consistency frames +
        wFrequency * analyze_frequency_spectrum frames +
        wStability * analyze_face_size_stability frames +
        wHistogram * analyze_histogram_consistency frames) ∧
    wColor + wMotion + wSharpness + wFrequency + wStability + wHistogram = 1 := by
  constructor
  · rw [probability_expand]
    simp only [wColor, wMotion, wSharpness, wFrequency, wStability, wHistogram]
    ring
  · norm_num [wColor, wMotion, wSharpness, wFrequency, wStability, wHistogram]

/-- C9: every per-feature score lies in the interval 0 to 1, the probability
lies in 0 to 100, and the confidence computed from the probability lies in
0 to 100. -/
theorem C9_invariants (flow : Frame → Frame → ℚ) (frames : List Frame) (fps : ℚ) :
    (0 ≤ analyze_color_stability frames ∧ analyze_color_stability frames ≤ 1) ∧
    (0 ≤ analyze_motion_consistency flow frames ∧
      analyze_motion_consistency flow frames ≤ 1) ∧
    (0 ≤ analyze_sharpness_consistency frames ∧
      analyze_sharpness_consistency frames ≤ 1) ∧
    (0 ≤ analyze_frequency_spectrum frames ∧
      analyze_frequency_spectrum frames ≤ 1) ∧
    (0 ≤ analyze_face_size_stability frames ∧
      analyze_face_size_stability frames ≤ 1) ∧
    (0 ≤ analyze_histogram_consistency frames ∧
      analyze_histogram_consistency frames ≤ 1) ∧
    (0 ≤ (aggregate_features flow frames fps).1 ∧
      (aggregate_features flow frames fps).1 ≤ 100) ∧
    (0 ≤ pyConfidence (aggregate_features flow frames fps).1 ∧
      pyConfidence (aggregate_features flow frames fps).1 ≤ 100) := by
  obtain ⟨p0, p100⟩ := probability_bounds flow frames fps
  exact ⟨color_bounds frames, motion_bounds flow frames, sharpness_bounds frames,
    frequency_bounds frames, stability_bounds frames, histogram_bounds frames,
    ⟨p0, p100⟩, pyConfidence_bounds p0 p100⟩

lemma firstCrop_eq_none {f : Frame} (h : noFaces f = true) : firstCrop f = none := by
  unfold noFaces at h
  rw [List.isEmpty_iff] at h
  unfold firstCrop
  rw [h]
  rfl

lemma all_take {p : Frame → Bool} {l : List Frame} (n : ℕ) (h : l.all p = true) :
    (l.take n).all p = true := by
  rw [List.all_eq_true] at h ⊢
  exact fun x hx => h x (List.take_subset n l hx)

lemma samples_nil {α : Type} (k : ℕ) (G : Frame → Option α)
    (hG : ∀ f, noFaces f = true → G f = none)
    {frames : List Frame} (h : frames.all noFaces = true) :
    (frames.take k).filterMap G = [] := by
  rw [List.filterMap_eq_nil_iff]
  intro f hf
  exact hG f (List.all_eq_true.mp (all_take k h) f hf)

lemma pairFlows_length (flow : Frame → Frame → ℚ) (frames : List Frame) :
    (pairFlows flow frames).length = min frames.length 30 - 1 := by
  simp only [pairFlows, List.length_zipWith, List.length_tail, List.length_take]
  omega

lemma boxRegion_nonempty {H W : ℕ} {b : Box} (hfw : 0 < b.fw) (hfh : 0 < b.fh)
    (hx : b.x + b.fw ≤ W) (hy : b.y + b.fh ≤ H) :
    (boxRegion H W b).x1 < (boxRegion H W b).x2 ∧
      (boxRegion H W b).y1 < (boxRegion H W b).y2 := by
  simp only [boxRegion]
  omega

lemma firstCrop_keepFirst {f : Frame} (h : validBoxes f = true) :
    firstCrop (keepFirst f) = firstCrop f := by
  unfold firstCrop detect_faces_haar keepFirst
  cases hf : f.faces with
  | nil => simp [hf]
  | cons b t =>
      unfold validBoxes at h
      rw [hf, List.all_cons] at h
      simp only [Bool.and_eq_true, decide_eq_true_eq] at h
      obtain ⟨⟨⟨⟨h1, h2⟩, h3⟩, h4⟩, -⟩ := h
      obtain ⟨hcx, hcy⟩ := boxRegion_nonempty (H := f.height) (W := f.width) h1 h2 h3 h4
      simp [hf, List.filterMap_cons, hcx, hcy]

lemma filterMap_keepFirst {α : Type} (G : Frame → Option α)
    (hG : ∀ f, validBoxes f = true → G (keepFirst f) = G f) :
    ∀ l : List Frame, l.all validBoxes = true →
      (l.map keepFirst).filterMap G = l.filterMap G := by
  intro l hl
  induction l with
  | nil => rfl
  | cons a t ih =>
      simp only [List.all_cons, Bool.and_eq_true] at hl
      obtain ⟨ha, ht⟩ := hl
      rw [List.map_cons]
      cases hGa : G a with
      | none =>
          rw [List.filterMap_cons_none (by rw [hG a ha, hGa]),
            List.filterMap_cons_none hGa, ih ht]
      | some x =>
          rw [List.filterMap_cons_some (by rw [hG a ha, hGa]),
            List.filterMap_cons_some hGa, ih ht]

lemma color_keepFirst {frames : List Frame} (h : frames.all validBoxes = true) :
    analyze_color_stability (frames.map keepFirst) = analyze_color_stability frames := by
  have hs : ((frames.map keepFirst).take 40).filterMap
      (fun f => (firstCrop f).map f.colorOf) =
      (frames.take 40).filterMap (fun f => (firstCrop f).map f.colorOf) := by
    rw [← List.map_take]
    exact filterMap_keepFirst _ (fun f hf => by rw [firstCrop_keepFirst hf] <;> rfl) _ (all_take 40 h)
  simp only [analyze_color_stability, hs]

lemma sharpness_keepFirst {frames : List Frame} (h : frames.all validBoxes = true) :
    analyze_sharpness_consistency (frames.map keepFirst) =
      analyze_sharpness_consistency frames := by
  have hs : ((frames.map keepFirst).take 35).filterMap
      (fun f => (firstCrop f).map (fun r => variance (f.lapOf r))) =
      (frames.take 35).filterMap
        (fun f => (firstCrop f).map (fun r => variance (f.lapOf r))) := by
    rw [← List.map_take]
    exact filterMap_keepFirst _ (fun f hf => by rw [firstCrop_keepFirst hf] <;> rfl) _ (all_take 35 h)
  simp only [analyze_sharpness_consistency, hs]

lemma frequency_keepFirst {frames : List Frame} (h : frames.all validBoxes = true) :
    analyze_frequency_spectrum (frames.map keepFirst) =
      analyze_frequency_spectrum frames := by
  have hs : ((frames.map keepFirst).take 25).filterMap
      (fun f => (firstCrop f).bind f.freqOf) =
      (frames.take 25).filterMap (fun f => (firstCrop f).bind f.freqOf) := by
    rw [← List.map_take]
    exact filterMap_keepFirst _ (fun f hf => by rw [firstCrop_keepFirst hf] <;> rfl) _ (all_take 25 h)
  simp only [analyze_frequency_spectrum, hs]

lemma stability_keepFirst {frames : List Frame} (h : frames.all validBoxes = true) :
    analyze_face_size_stability (frames.map keepFirst) =
      analyze_face_size_stability frames := by
  have hs : ((frames.map keepFirst).take 50).filterMap
      (fun f => (firstCrop f).map (fun r => (regionArea r : ℚ))) =
      (frames.take 50).filterMap (fun f => (firstCrop f).map (fun r => (regionArea r : ℚ))) := by
    rw [← List.map_take]
    exact filterMap_keepFirst _ (fun f hf => by rw [firstCrop_keepFirst hf] <;> rfl) _ (all_take 50 h)
  simp only [analyze_face_size_stability, hs]

lemma histogram_keepFirst {frames : List Frame} (h : frames.all validBoxes = true) :
    analyze_histogram_consistency (frames.map keepFirst) =
      analyze_histogram_consistency frames := by
  have hs : ((frames.map keepFirst).take 30).filterMap
      (fun f => (firstCrop f).map f.histOf) =
      (frames.take 30).filterMap (fun f => (firstCrop f).map f.histOf) := by
    rw [← List.map_take]
    exact filterMap_keepFirst _ (fun f hf => by rw [firstCrop_keepFirst hf] <;> rfl) _ (all_take 30 h)
  simp only [analyze_histogram_consistency, hs]

lemma ratSqrt_nat (k : ℕ) : ratSqrt ((k * k : ℕ) : ℚ) = (k : ℚ) := by
  unfold ratSqrt
  rw [Rat.num_natCast, Rat.den_natCast, Int.toNat_natCast, mul_one, Nat.sqrt_eq]
  simp

lemma motion_neutral_of_short (flow : Frame → Frame → ℚ) (frames : List Frame)
    (h : frames.length < 6) : analyze_motion_consistency flow frames = 1/2 := by
  simp [analyze_motion_consistency, h]

lemma face_analyzers_neutral {frames : List Frame} (h : frames.all noFaces = true) :
    analyze_color_stability frames = 1/2 ∧
    analyze_sharpness_consistency frames = 1/2 ∧
    analyze_frequency_spectrum frames = 1/2 ∧
    analyze_face_size_stability frames = 1/2 ∧
    analyze_histogram_consistency frames = 1/2 := by
  refine ⟨?_, ?_, ?_, ?_, ?_⟩
  · rw [analyze_color_stability,
      samples_nil 40 _ (fun f hf => by rw [firstCrop_eq_none hf] <;> rfl) h]
    norm_num
  · rw [analyze_sharpness_consistency,
      samples_nil 35 _ (fun f hf => by rw [firstCrop_eq_none hf] <;> rfl) h]
    norm_num
  · rw [analyze_frequency_spectrum,
      samples_nil 25 _ (fun f hf => by rw [firstCrop_eq_none hf] <;> rfl) h]
    norm_num
  · rw [analyze_face_size_stability,
      samples_nil 50 _ (fun f hf => by rw [firstCrop_eq_none hf] <;> rfl) h]
    norm_num
  · rw [analyze_histogram_consistency,
      samples_nil 30 _ (fun f hf => by rw [firstCrop_eq_none hf] <;> rfl) h]
    norm_num

lemma color_cx : analyze_color_stability cxFrames = 1/2 := by
  have hsamp : ((cxFrames.take 40).filterMap fun f => (firstCrop f).map f.colorOf) =
      [List.replicate 6 (520 : ℚ), List.replicate 6 495, List.replicate 6 495,
       List.replicate 6 495, List.replicate 6 495] := rfl
  have hvar : variance [(520 : ℚ), 495, 495, 495, 495] = 100 := by
    norm_num [variance, mean]
  have hstd : npStd [(520 : ℚ), 495, 495, 495, 495] = 10 := by
    rw [npStd, hvar, show (100 : ℚ) = ((10 * 10 : ℕ) : ℚ) by norm_num, ratSqrt_nat]
    norm_num
  simp only [analyze_color_stability, hsamp]
  rw [if_neg (by norm_num),
    show List.transpose [List.replicate 6 (520 : ℚ), List.replicate 6 495,
      List.replicate 6 495, List.replicate 6 495, List.replicate 6 495] =
      List.replicate 6 [520, 495, 495, 495, 495] from rfl,
    List.map_replicate, hstd]
  have hm : mean (List.replicate 6 (10 : ℚ)) = 10 := by
    rw [mean, List.sum_replicate, List.length_replicate]
    norm_num
  rw [hm, show ((10 : ℚ) - 5) / 10 = 1/2 by norm_num,
    max_eq_right (by norm_num : (0 : ℚ) ≤ 1/2),
    min_eq_right (by norm_num : (1/2 : ℚ) ≤ 1)]

lemma sharpness_cx : analyze_sharpness_consistency cxFrames = 3/10 := by
  have hvar : variance [(20 : ℚ), -5, -5, -5, -5] = 100 := by
    norm_num [variance, mean]
  have hsamp : ((cxFrames.take 35).filterMap
      fun f => (firstCrop f).map (fun r => variance (f.lapOf r))) =
      List.replicate 5 (100 : ℚ) := by
    rw [show ((cxFrames.take 35).filterMap
        fun f => (firstCrop f).map (fun r => variance (f.lapOf r))) =
        List.replicate 5 (variance [(20 : ℚ), -5, -5, -5, -5]) from rfl, hvar]
  have hm : mean (List.replicate 5 (100 : ℚ)) = 100 := by
    rw [mean, List.sum_replicate, List.length_replicate]
    norm_num
  have hv0 : variance (List.replicate 5 (100 : ℚ)) = 0 := by
    rw [show List.replicate 5 (100 : ℚ) = [100, 100, 100, 100, 100] from rfl]
    norm_num [variance, mean]
  simp only [analyze_sharpness_consistency, hsamp, hm, hv0]
  norm_num

lemma frequency_cx : analyze_frequency_spectrum cxFrames = 1/2 := by
  have hsamp : ((cxFrames.take 25).filterMap fun f => (firstCrop f).bind f.freqOf) =
      List.replicate 5 (1/2 : ℚ) := rfl
  have hm : mean (List.replicate 5 (1/2 : ℚ)) = 1/2 := by
    rw [mean, List.sum_replicate, List.length_replicate]
    norm_num
  simp only [analyze_frequency_spectrum, hsamp, hm]
  rw [if_neg (by norm_num), if_neg (by norm_num), if_neg (by norm_num)]

lemma stability_cx : analyze_face_size_stability cxFrames = 11/25 := by
  have hsamp : ((cxFrames.take 50).filterMap
      fun f => (firstCrop f).map (fun r => (regionArea r : ℚ))) =
      [(688 : ℚ), 453, 453, 453, 453] := rfl
  have hm : mean [(688 : ℚ), 453, 453, 453, 453] = 500 := by
    norm_num [mean]
  have hvar : variance [(688 : ℚ), 453, 453, 453, 453] = 8836 := by
    norm_num [variance, mean]
  have hstd : npStd [(688 : ℚ), 453, 453, 453, 453] = 94 := by
    rw [npStd, hvar, show (8836 : ℚ) = ((94 * 94 : ℕ) : ℚ) by norm_num, ratSqrt_nat]
    norm_num
  simp only [analyze_face_size_stability, hsamp, hm, hstd]
  rw [if_neg (by norm_num), if_neg (by norm_num),
    show ((94 : ℚ) / 500 - 1/10) / (1/5) = 11/25 by norm_num,
    max_eq_right (by norm_num : (0 : ℚ) ≤ 11/25),
    min_eq_right (by norm_num : (11/25 : ℚ) ≤ 1)]

lemma histogram_cx : analyze_histogram_consistency cxFrames = 0 := by
  have hsamp : ((cxFrames.take 30).filterMap fun f => (firstCrop f).map f.histOf) =
      List.replicate 5 [(0 : ℚ)] := rfl
  have hv0 : variance [(0 : ℚ), 0, 0, 0, 0] = 0 := by
    norm_num [variance, mean]
  have hstd : npStd [(0 : ℚ), 0, 0, 0, 0] = 0 := by
    rw [npStd, hv0, show (0 : ℚ) = ((0 * 0 : ℕ) : ℚ) by norm_num, ratSqrt_nat]
  simp only [analyze_histogram_consistency, hsamp]
  rw [if_neg (by norm_num)]
  rw [show (List.replicate 5 [(0 : ℚ)]).transpose = [[0, 0, 0, 0, 0]] from rfl]
  rw [show List.map npStd [[(0 : ℚ), 0, 0, 0, 0]] = [npStd [0, 0, 0, 0, 0]] from rfl]
  rw [hstd]
  rw [show mean [(0 : ℚ)] = 0 by norm_num [mean]]
  rw [zero_div]
  exact min_eq_right (by norm_num)

lemma aggregate_cx : (aggregate_features flow0 cxFrames 1).1 = 202/5 := by
  rw [probability_expand, color_cx, motion_neutral_of_short flow0 cxFrames (by decide),
    sharpness_cx, frequency_cx, stability_cx, histogram_cx]
  norm_num

/-- C1 (counterexample): with a path argument present and no exception, the
driver emits the error schema produced by `detect` on a missing file and
still exits with code 0, contradicting the claim that every emitted error
schema comes with exit code 1. -/
theorem C1_counterexample :
    isErrorSchema (pyMain ["prog", "clip"] (fun _ => missingSrc) flow0 none).1 = true ∧
    (pyMain ["prog", "clip"] (fun _ => missingSrc) flow0 none).2 = 0 := by
  decide

/-- C1 (amended): the process exits 1 exactly when the path argument is
missing or an exception propagates out of the analysis; an exception is
caught at the top level and emitted as the error schema with exit code 1;
but when `detect` itself returns an error object it is emitted with exit
code 0. -/
theorem C1_exit_codes (argv : List String) (lookup : String → VideoSource)
    (flow : Frame → Frame → ℚ) (e : String) :
    (argv.length < 2 →
      pyMain argv lookup flow none = (Emitted.errObj "No video path provided", 1)) ∧
    (2 ≤ argv.length → (pyMain argv lookup flow none).2 = 0) ∧
    (2 ≤ argv.length → pyMain argv lookup flow (some e) = (Emitted.excObj e, 1)) ∧
    (argv.length < 2 →
      pyMain argv lookup flow (some e) = (Emitted.errObj "No video path provided", 1)) := by
  rcases argv with _ | ⟨a, _ | ⟨b, t⟩⟩
  · exact ⟨fun h => rfl, fun h => absurd (by rw [List.length_nil] at h; exact h) (by omega),
      fun h => absurd (by rw [List.length_nil] at h; exact h) (by omega), fun h => rfl⟩
  · exact ⟨fun h => rfl,
      fun h => absurd (by rw [List.length_cons, List.length_nil] at h; exact h) (by omega),
      fun h => absurd (by rw [List.length_cons, List.length_nil] at h; exact h) (by omega),
      fun h => rfl⟩
  · exact ⟨fun h => absurd (by rw [List.length_cons, List.length_cons] at h; exact h) (by omega),
      fun h => rfl, fun h => rfl,
      fun h => absurd (by rw [List.length_cons, List.length_cons] at h; exact h) (by omega)⟩

/-- C1 (witness): the amended exit-code contract evaluated on a concrete
two-argument invocation, with and without an exception. -/
theorem C1_witness :
    2 ≤ (["prog", "clip"] : List String).length ∧
    (pyMain ["prog", "clip"] (fun _ => missingSrc) flow0 none).2 = 0 ∧
    pyMain ["prog", "clip"] (fun _ => missingSrc) flow0 (some "boom") =
      (Emitted.excObj "boom", 1) :=
  ⟨by decide,
   (C1_exit_codes ["prog", "clip"] (fun _ => missingSrc) flow0 "boom").2.1 (by decide),
   (C1_exit_codes ["prog", "clip"] (fun _ => missingSrc) flow0 "boom").2.2.1 (by decide)⟩

/-- C2 (counterexample): six faceless frames with unit optical flow satisfy
the premises of the claim (at least 5 frames, no detected face anywhere), all
five face-dependent analyzers do return 0.5, yet the probability is 55, not
50, because the motion analyzer is not face-dependent. -/
theorem C2_counterexample :
    nf6.all noFaces = true ∧ 5 ≤ nf6.length ∧
    analyze_color_stability nf6 = 1/2 ∧
    analyze_sharpness_consistency nf6 = 1/2 ∧
    analyze_frequency_spectrum nf6 = 1/2 ∧
    analyze_face_size_stability nf6 = 1/2 ∧
    analyze_histogram_consistency nf6 = 1/2 ∧
    (aggregate_features flowOne nf6 1).1 ≠ 50 ∧
    (aggregate_features flowOne nf6 1).1 = 55 := by
  have h : nf6.all noFaces = true := by decide
  obtain ⟨h1, h2, h3, h4, h5⟩ := face_analyzers_neutral h
  have hflows : pairFlows flowOne nf6 = [(1 : ℚ), 1, 1, 1, 1] := rfl
  have hmean : mean [(1 : ℚ), 1, 1, 1, 1] = 1 := by norm_num [mean]
  have hvar : variance [(1 : ℚ), 1, 1, 1, 1] = 0 := by norm_num [variance, mean]
  have hm : analyze_motion_consistency flowOne nf6 = 3/4 := by
    simp only [analyze_motion_consistency, hflows, hmean, hvar]
    rw [if_neg (by decide), if_neg (by decide), if_neg (by norm_num),
      if_pos (by norm_num)]
  have hp : (aggregate_features flowOne nf6 1).1 = 55 := by
    rw [probability_expand, h1, h2, h3, h4, h5, hm]
    norm_num
  exact ⟨h, by decide, h1, h2, h3, h4, h5, by rw [hp]; norm_num, hp⟩

/-- C2 (amended): when no frame yields a detected face, each of the five
face-dependent analyzers returns exactly 0.5, and whenever the (face
independent) motion analyzer also returns 0.5 — in particular for exactly
5 frames — the probability is exactly 50 and the confidence is 50. -/
theorem C2_no_face_neutral (flow : Frame → Frame → ℚ) (frames : List Frame) (fps : ℚ)
    (h : frames.all noFaces = true) :
    analyze_color_stability frames = 1/2 ∧
    analyze_sharpness_consistency frames = 1/2 ∧
    analyze_frequency_spectrum frames = 1/2 ∧
    analyze_face_size_stability frames = 1/2 ∧
    analyze_histogram_consistency frames = 1/2 ∧
    (analyze_motion_consistency flow frames = 1/2 →
      (aggregate_features flow frames fps).1 = 50 ∧
      pyConfidence ((aggregate_features flow frames fps).1) = 50) := by
  obtain ⟨hcol, hsh, hfr, hst, hhi⟩ := face_analyzers_neutral h
  refine ⟨hcol, hsh, hfr, hst, hhi, fun hm => ?_⟩
  have hp : (aggregate_features flow frames fps).1 = 50 := by
    rw [probability_expand, hcol, hsh, hfr, hst, hhi, hm]
    norm_num
  refine ⟨hp, ?_⟩
  rw [hp]
  norm_num [pyConfidence, pyInt]

/-- C2 (witness): the amended statement evaluated on five concrete faceless
frames, where the motion analyzer does return its neutral value. -/
theorem C2_witness :
    nf5.all noFaces = true ∧
    analyze_motion_consistency flow0 nf5 = 1/2 ∧
    (aggregate_features flow0 nf5 1).1 = 50 ∧
    pyConfidence ((aggregate_features flow0 nf5 1).1) = 50 :=
  ⟨by decide, motion_neutral_of_short flow0 nf5 (by decide),
   ((C2_no_face_neutral flow0 nf5 1 (by decide)).2.2.2.2.2
     (motion_neutral_of_short flow0 nf5 (by decide))).1,
   ((C2_no_face_neutral flow0 nf5 1 (by decide)).2.2.2.2.2
     (motion_neutral_of_short flow0 nf5 (by decide))).2⟩

/-- C4 (counterexample): on a concrete five-frame video the pipeline
computes probability 40.4; the code truncates the confidence
`int(100 - 40.4) = 59`, while the rounding demanded by the claim to the nearest integer
would give 60. -/
theorem C4_counterexample :
    (aggregate_features flow0 cxFrames 1).1 = 202/5 ∧
    detect flow0 cxSource =
      DetectResult.success false 59 ((aggregate_features flow0 cxFrames 1).2) ∧
    pyConfidence (202/5) = 59 ∧
    claimConfidence (202/5) = 60 ∧
    pyConfidence (202/5) ≠ claimConfidence (202/5) := by
  have hp := aggregate_cx
  have hconf : pyConfidence (202/5 : ℚ) = 59 := by
    rw [pyConfidence, if_neg (by norm_num : ¬((50 : ℚ) < 202/5)), pyInt,
      if_pos (by norm_num : (0 : ℚ) ≤ 100 - 202/5)]
    norm_num
  have hclaim : claimConfidence (202/5 : ℚ) = 60 := by
    rw [claimConfidence, if_neg (by norm_num : ¬((50 : ℚ) < 202/5))]
    norm_num [round_eq]
  have hpe : cxSource.pathExists = true := rfl
  have hgf : getFrames cxSource = (cxFrames, 1) := rfl
  have h5 : ¬(cxFrames.length < 5) := by decide
  have hdet : detect flow0 cxSource = DetectResult.success
      (decide (50 < (aggregate_features flow0 cxFrames 1).1))
      (pyConfidence ((aggregate_features flow0 cxFrames 1).1))
      ((aggregate_features flow0 cxFrames 1).2) := by
    simp [detect, hpe, hgf, h5]
  refine ⟨hp, ?_, hconf, hclaim, by rw [hconf, hclaim]; norm_num⟩
  rw [hdet, hp, hconf, decide_eq_false (by norm_num : ¬((50 : ℚ) < 202/5))]

/-- C4 (amended): the verdict is `probability > 50`, and the confidence is
`probability` when the verdict holds and `100 - probability` otherwise,
truncated toward zero — which on these nonnegative values is the floor, not
rounding to the nearest integer. -/
theorem C4_truncated_confidence (flow : Frame → Frame → ℚ) (v : VideoSource)
    (hex : v.pathExists = true) (hlen : 5 ≤ (getFrames v).1.length) :
    detect flow v = DetectResult.success
      (decide (50 < (aggregate_features flow (getFrames v).1 (getFrames v).2).1))
      (pyConfidence ((aggregate_features flow (getFrames v).1 (getFrames v).2).1))
      ((aggregate_features flow (getFrames v).1 (getFrames v).2).2) ∧
    pyConfidence ((aggregate_features flow (getFrames v).1 (getFrames v).2).1) =
      ⌊if 50 < (aggregate_features flow (getFrames v).1 (getFrames v).2).1
        then (aggregate_features flow (getFrames v).1 (getFrames v).2).1
        else 100 - (aggregate_features flow (getFrames v).1 (getFrames v).2).1⌋ := by
  constructor
  · have hn : ¬((getFrames v).1.length < 5) := by omega
    simp [detect, hex, hn]
  · obtain ⟨p0, p100⟩ := probability_bounds flow (getFrames v).1 (getFrames v).2
    unfold pyConfidence pyInt
    by_cases hv : 50 < (aggregate_features flow (getFrames v).1 (getFrames v).2).1
    · rw [if_pos hv, if_pos p0]
    · rw [if_neg hv, if_pos (by linarith)]

/-- C4 (witness): the amended verdict-and-confidence shape evaluated on the
concrete five-frame video. -/
theorem C4_witness :
    cxSource.pathExists = true ∧ 5 ≤ (getFrames cxSource).1.length ∧
    detect flow0 cxSource = DetectResult.success
      (decide (50 < (aggregate_features flow0 (getFrames cxSource).1 (getFrames cxSource).2).1))
      (pyConfidence ((aggregate_features flow0 (getFrames cxSource).1 (getFrames cxSource).2).1))
      ((aggregate_features flow0 (getFrames cxSource).1 (getFrames cxSource).2).2) :=
  ⟨rfl, by decide, (C4_truncated_confidence flow0 cxSource rfl (by decide)).1⟩

/-- C5 (counterexample): five frames give four flow samples of unit
magnitude, so by the claim the three-way threshold applies and yields 0.75,
but the `len(frames) < 6` guard in the code returns the neutral 0.5 instead. -/
theorem C5_counterexample :
    5 ≤ nf5.length ∧
    analyze_motion_consistency flowOne nf5 = 1/2 ∧
    claimMotionScore flowOne nf5 = 3/4 ∧
    analyze_motion_consistency flowOne nf5 ≠ claimMotionScore flowOne nf5 := by
  have hm : analyze_motion_consistency flowOne nf5 = 1/2 :=
    motion_neutral_of_short flowOne nf5 (by decide)
  have hflows : (List.zipWith flowOne nf5 nf5.tail).take 30 = [(1 : ℚ), 1, 1, 1] := rfl
  have hmean : mean [(1 : ℚ), 1, 1, 1] = 1 := by norm_num [mean]
  have hvar : variance [(1 : ℚ), 1, 1, 1] = 0 := by norm_num [variance, mean]
  have hc : claimMotionScore flowOne nf5 = 3/4 := by
    simp only [claimMotionScore, hflows, hmean, hvar]
    rw [if_neg (by decide), if_neg (by norm_num), if_pos (by norm_num)]
  exact ⟨by decide, hm, hc, by rw [hm, hc]; norm_num⟩

/-- C5 (amended): the motion analyzer returns the neutral 0.5 for every
sequence of fewer than 6 frames; with at least 6 frames it computes the
mean flow over the first `min n 30 - 1` consecutive pairs (at most 29, not
30) and applies the neutral-mean guard and three-way threshold — the
internal fewer-than-3-samples guard can then never fire. -/
theorem C5_motion_guard (flow : Frame → Frame → ℚ) (frames : List Frame) :
    ((pairFlows flow frames).length = min frames.length 30 - 1) ∧
    (frames.length < 6 → analyze_motion_consistency flow frames = 1/2) ∧
    (6 ≤ frames.length →
      analyze_motion_consistency flow frames = motionThreeWay flow frames) := by
  refine ⟨pairFlows_length flow frames, fun h => ?_, fun h => ?_⟩
  · simp [analyze_motion_consistency, h]
  · have h6 : ¬(frames.length < 6) := by omega
    have h3 : ¬((pairFlows flow frames).length < 3) := by
      rw [pairFlows_length]
      omega
    simp only [analyze_motion_consistency, motionThreeWay, if_neg h6, if_neg h3]

/-- C5 (witness): the amended guard behaviour evaluated on six and on five
concrete frames. -/
theorem C5_witness :
    6 ≤ nf6.length ∧
    analyze_motion_consistency flowOne nf6 = motionThreeWay flowOne nf6 ∧
    nf5.length < 6 ∧
    analyze_motion_consistency flowOne nf5 = 1/2 :=
  ⟨by decide, (C5_motion_guard flowOne nf6).2.2 (by decide), by decide,
   (C5_motion_guard flowOne nf5).2.1 (by decide)⟩

/-- C6 (counterexample): on a 10 by 20 box the region computed by the code differs
from the region described by the spec, because the code pads the y axis with 20 percent of the
WIDTH (2 pixels) where the claim demands 20 percent of the height
(4 pixels). -/
theorem C6_counterexample :
    (boxRegion 200 200 ⟨50, 50, 10, 20⟩).toInt ≠ specFaceRegion 200 200 ⟨50, 50, 10, 20⟩ := by
  decide

/-- C6 (amended): every face region is the raw box expanded by
`int(0.2 * width)` on BOTH axes — 20 percent of the detected width on the x
axis and also on the y axis — then clamped to the frame bounds. -/
theorem C6_padding_uses_width (frameH frameW : ℕ) (b : Box) :
    (boxRegion frameH frameW b).toInt =
      expandClamp frameH frameW ((b.fw / 5 : ℕ) : ℤ) ((b.fw / 5 : ℕ) : ℤ) b := by
  simp only [boxRegion, expandClamp, Region.toInt, IntRegion.mk.injEq]
  refine ⟨?_, ?_, ?_, ?_⟩ <;> omega

/-- C7 (counterexample): an existing but unopenable source produces exactly
the same error object as a readable four-frame source, so the unreadable
case is not distinct from the insufficient-frames case. -/
theorem C7_counterexample :
    detect flow0 unreadSrc = DetectResult.error "Video too short (need at least 5 frames)" ∧
    detect flow0 nfSrc4 = DetectResult.error "Video too short (need at least 5 frames)" ∧
    detect flow0 unreadSrc = detect flow0 nfSrc4 := by
  decide

/-- C7 (amended): a source that exists but cannot be opened decodes zero
frames and therefore fails with the same insufficient-frames error object
`Video too short (need at least 5 frames)`; no separate unreadable-source
error exists. -/
theorem C7_unreadable_same_error (flow : Frame → Frame → ℚ) (v : VideoSource)
    (hex : v.pathExists = true) (hop : v.opened = false) :
    detect flow v = DetectResult.error "Video too short (need at least 5 frames)" := by
  have hframes : (getFrames v).1 = [] := by
    simp [getFrames, hop, sampleIndices]
  simp [detect, hex, hframes]

/-- C7 (witness): the amended statement evaluated on the concrete
unopenable source. -/
theorem C7_witness :
    unreadSrc.pathExists = true ∧ unreadSrc.opened = false ∧
    detect flowOne unreadSrc = DetectResult.error "Video too short (need at least 5 frames)" :=
  ⟨rfl, rfl, C7_unreadable_same_error flowOne unreadSrc rfl rfl⟩

/-- C8: a source decoding to exactly 4 frames yields the insufficient-frames
error object without consulting any analyzer (the equation holds for every
flow oracle and arbitrary per-frame measurements), while a source decoding
to exactly 5 frames runs the full aggregation pipeline and produces the
success object built from it. -/
theorem C8_boundary (flow : Frame → Frame → ℚ) (v : VideoSource)
    (hex : v.pathExists = true) :
    ((getFrames v).1.length = 4 →
      detect flow v = DetectResult.error "Video too short (need at least 5 frames)") ∧
    ((getFrames v).1.length = 5 →
      detect flow v = DetectResult.success
        (decide (50 < (aggregate_features flow (getFrames v).1 (getFrames v).2).1))
        (pyConfidence ((aggregate_features flow (getFrames v).1 (getFrames v).2).1))
        ((aggregate_features flow (getFrames v).1 (getFrames v).2).2)) := by
  constructor
  · intro h4
    simp [detect, hex, h4]
  · intro h5
    simp [detect, hex, h5]

/-- C8 (witness): the boundary behaviour evaluated on concrete four-frame
and five-frame sources. -/
theorem C8_witness :
    nfSrc4.pathExists = true ∧ (getFrames nfSrc4).1.length = 4 ∧
    detect flowOne nfSrc4 = DetectResult.error "Video too short (need at least 5 frames)" ∧
    nfSrc5.pathExists = true ∧ (getFrames nfSrc5).1.length = 5 ∧
    detect flowOne nfSrc5 = DetectResult.success
      (decide (50 < (aggregate_features flowOne (getFrames nfSrc5).1 (getFrames nfSrc5).2).1))
      (pyConfidence ((aggregate_features flowOne (getFrames nfSrc5).1 (getFrames nfSrc5).2).1))
      ((aggregate_features flowOne (getFrames nfSrc5).1 (getFrames nfSrc5).2).2) :=
  ⟨rfl, by decide, (C8_boundary flowOne nfSrc4 rfl).1 (by decide),
   rfl, by decide, (C8_boundary flowOne nfSrc5 rfl).2 (by decide)⟩

/-- C10: when the raw detections of every frame are genuine Haar boxes
(positive size, inside the frame), replacing the detection list of each frame by
its first element alone leaves all five face-based analyzers unchanged —
additional detected faces never contribute a sample. -/
theorem C10_first_box_only (frames : List Frame) (h : frames.all validBoxes = true) :
    analyze_color_stability (frames.map keepFirst) = analyze_color_stability frames ∧
    analyze_sharpness_consistency (frames.map keepFirst) =
      analyze_sharpness_consistency frames ∧
    analyze_frequency_spectrum (frames.map keepFirst) =
      analyze_frequency_spectrum frames ∧
    analyze_face_size_stability (frames.map keepFirst) =
      analyze_face_size_stability frames ∧
    analyze_histogram_consistency (frames.map keepFirst) =
      analyze_histogram_consistency frames :=
  ⟨color_keepFirst h, sharpness_keepFirst h, frequency_keepFirst h,
   stability_keepFirst h, histogram_keepFirst h⟩

/-- C10 (witness): the first-box-only property evaluated on five concrete
frames carrying two valid detections each, with crop-dependent
measurement oracles. -/
theorem C10_witness :
    twFrames.all validBoxes = true ∧
    analyze_color_stability (twFrames.map keepFirst) = analyze_color_stability twFrames ∧
    analyze_sharpness_consistency (twFrames.map keepFirst) =
      analyze_sharpness_consistency twFrames ∧
    analyze_frequency_spectrum (twFrames.map keepFirst) =
      analyze_frequency_spectrum twFrames ∧
    analyze_face_size_stability (twFrames.map keepFirst) =
      analyze_face_size_stability twFrames ∧
    analyze_histogram_consistency (twFrames.map keepFirst) =
      analyze_histogram_consistency twFrames :=
  ⟨by decide, (C10_first_box_only twFrames (by decide)).1,
   (C10_first_box_only twFrames (by decide)).2.1,
   (C10_first_box_only twFrames (by decide)).2.2.1,
   (C10_first_box_only twFrames (by decide)).2.2.2.1,
   (C10_first_box_only twFrames (by decide)).2.2.2.2⟩

end Deepfake
